import Mathlib

/-!
A shallow embedding of the financial core of the Client-Management
repository (NestJS/Prisma backend): the account adjustment transaction
(`ClientsService.adjustAccount`), the account summary aggregation
(`AccountsService.getSummary`), the staff-work payout preview
(`AccountsService.getStaffWorkPayoutPreview`) and the reminder staging
engine (`RemindersService`).

Modelling conventions:
* Monetary amounts and ids are `Int` (the schema stores 4-byte integers;
  nothing here overflows JS safe-integer range, so plain `Int` is exact).
* A nullable / possibly-`undefined` JS number is `Option Int`, with
  `none` standing for `null`/`undefined`.
* JS arithmetic on nullable values is embedded explicitly:
  `x || 0` is `jsOrZero`, multiplication coerces `null` to `0`
  (`Number(null) = 0`), and subtraction with an `undefined` operand
  yields `NaN`, embedded as `none` of `jsSub`.
* Database tables are lists of rows; Prisma `findMany`/`count` filters
  become `List.filter`, `groupBy` becomes grouping over deduplicated
  keys, and `aggregate _sum` returns `none` on an empty table.
* A computation that can raise a runtime error (a thrown `TypeError`, a
  store rejection) returns `Except String _`.
-/

namespace ClientMgmt

/-- JS `x || 0` on a nullable number (`null`/`undefined` ↦ 0; `0` is
falsy, so it also maps to 0, which coincides with the identity there). -/
def jsOrZero : Option Int → Int
  | none => 0
  | some n => n

/-- JS subtraction `a - b` where either operand may be `undefined`:
an `undefined` operand makes the result `NaN`, embedded as `none`. -/
def jsSub : Option Int → Option Int → Option Int
  | some a, some b => some (a - b)
  | _, _ => none

/-- JS multiplication `a * b` where either operand may be `null`
(Prisma returns `null` for SQL NULL): `Number(null) = 0`, so a `null`
operand is coerced to 0. -/
def jsMulNull (a b : Option Int) : Int := jsOrZero a * jsOrZero b

/-! ## Account adjustment transaction (`ClientsService.adjustAccount`) -/

/-- The three balance columns of a `Client` row. -/
structure ClientAcct where
  lockedAmountNrs : Int
  advanceAmountNrs : Int
  dueAmountNrs : Int
  deriving DecidableEq, Repr

/-- Embeds `ClientsService.adjustAccount` (src/unnamed/part_007, lines 86-113):
each of `lockedDelta`, `advanceDelta` is optional; an increment is added
to `lockedAmountNrs` (resp. `advanceAmountNrs`) only when the delta is
supplied, while `dueAmountNrs` is unconditionally incremented by
`lockedDelta - advanceDelta`. When either delta is `undefined` that JS
subtraction is `NaN`, which the store rejects for an integer column, so
the update fails and no field changes. -/
def adjustAccount (c : ClientAcct) (lockedDelta advanceDelta : Option Int) :
    Except String ClientAcct :=
  match jsSub lockedDelta advanceDelta with
  | none => .error "invalid NaN increment for dueAmountNrs"
  | some dueInc =>
      .ok { lockedAmountNrs := c.lockedAmountNrs + jsOrZero lockedDelta
            advanceAmountNrs := c.advanceAmountNrs + jsOrZero advanceDelta
            dueAmountNrs := c.dueAmountNrs + dueInc }

end ClientMgmt

namespace ClientMgmt

/-! ## Account summary (`AccountsService.getSummary`) -/

/-- The `Client.type` enum. -/
inductive ClientType
  | PROSPECT
  | ACTIVE
  | INACTIVE
  deriving DecidableEq, Repr

/-- The `Expense.source` enum. -/
inductive ExpenseSource
  | STAFF_MONTHLY
  | STAFF_WORK_BASIS
  | GENERAL
  deriving DecidableEq, Repr

/-- The fields of a `Client` row used by the summary queries.
`contractStartDate` is epoch milliseconds. -/
structure ClientRow where
  id : Int
  name : String
  type : ClientType
  contractStartDate : Int
  deriving DecidableEq, Repr

/-- An `Income` row: belongs to a client, carries an integer amount. -/
structure Income where
  clientId : Int
  amountNrs : Int
  deriving DecidableEq, Repr

/-- An `Expense` row: a source bucket and an integer amount. -/
structure Expense where
  source : ExpenseSource
  amountNrs : Int
  deriving DecidableEq, Repr

/-- Prisma `aggregate { _sum }`: `null` on an empty table, otherwise the
sum of the (non-null) column. -/
def sumAgg (l : List Int) : Option Int :=
  match l with
  | [] => none
  | _ => some l.sum

/-- Embeds `getSummary` totals: `totalIncomeResult._sum.amountNrs || 0`. -/
def totalIncomeNrs (incomes : List Income) : Int :=
  jsOrZero (sumAgg (incomes.map Income.amountNrs))

/-- Embeds `getSummary` totals: `totalExpenseResult._sum.amountNrs || 0`. -/
def totalExpenseNrs (expenses : List Expense) : Int :=
  jsOrZero (sumAgg (expenses.map Expense.amountNrs))

/-- Embeds `netNrs = totalIncomeNrs - totalExpenseNrs`. -/
def netNrs (incomes : List Income) (expenses : List Expense) : Int :=
  totalIncomeNrs incomes - totalExpenseNrs expenses

/-- The distinct keys produced by Prisma `groupBy` over a list of rows. -/
def groupKeys {α κ : Type} [DecidableEq κ] (key : α → κ) (rows : List α) :
    List κ :=
  (rows.map key).dedup

/-- The `_sum` of one `groupBy` group: `null` when the group is empty,
otherwise the sum of the group's amounts. -/
def groupSum {α κ : Type} [DecidableEq κ] (key : α → κ) (amt : α → Int)
    (rows : List α) (k : κ) : Option Int :=
  match rows.filter (fun r => decide (key r = k)) with
  | [] => none
  | g => some ((g.map amt).sum)

/-- Embeds `this.prisma.client.findUnique({ where: { id }, select: { name } })`:
the name of the first client row with the given id, if any. -/
def findClientName (clients : List ClientRow) (cid : Int) : Option String :=
  (clients.find? (fun c => decide (c.id = cid))).map ClientRow.name

/-- JS `s || 'Unknown'` on a nullable string: `undefined` and the empty
string are falsy. -/
def jsOrUnknown : Option String → String
  | none => "Unknown"
  | some s => if s = "" then "Unknown" else s

/-- One entry of `getSummary`'s `incomeByClient` list. -/
structure IncomeByClientEntry where
  clientId : Int
  name : String
  total : Int
  deriving DecidableEq, Repr

/-- One entry of `getSummary`'s `expenseBySource` list. -/
structure ExpenseBySourceEntry where
  source : ExpenseSource
  total : Int
  deriving DecidableEq, Repr

/-- Embeds `getSummary`'s `incomeByClientWithNames`: group `Income` by
`clientId`, sum amounts (`income._sum.amountNrs || 0`), and join the
client name via `findUnique`, defaulting to `'Unknown'`. -/
def incomeByClient (incomes : List Income) (clients : List ClientRow) :
    List IncomeByClientEntry :=
  (groupKeys Income.clientId incomes).map fun k =>
    { clientId := k
      name := jsOrUnknown (findClientName clients k)
      total := jsOrZero (groupSum Income.clientId Income.amountNrs incomes k) }

/-- Embeds `getSummary`'s `expenseBySourceFormatted`: group `Expense` by
`source` and sum amounts (`expense._sum.amountNrs || 0`). -/
def expenseBySource (expenses : List Expense) : List ExpenseBySourceEntry :=
  (groupKeys Expense.source expenses).map fun k =>
    { source := k
      total := jsOrZero (groupSum Expense.source Expense.amountNrs expenses k) }

/-! ### Contract-expiry counts of `getSummary`

The code builds each count from a `client.count` whose `where` clause
conjoins `type = ACTIVE`, `contractStartDate <= now`,
`contractStartDate <= horizon` and `contractStartDate > now`
(accounts.service.ts, lines 80-141). The horizon instant is taken as an
arbitrary parameter: the conjunction does not depend on its value. -/

/-- The `where` clause of `contractsExpiringIn{30,7,1}Day(s)`, verbatim
from the code: ACTIVE, `lte: now`, `lte: horizon`, `gt: now`. -/
def codeExpiringPred (now horizon : Int) (c : ClientRow) : Bool :=
  decide (c.type = ClientType.ACTIVE) &&
  decide (c.contractStartDate ≤ now) &&
  decide (c.contractStartDate ≤ horizon) &&
  decide (now < c.contractStartDate)

/-- Embeds `prisma.client.count` with the expiry `where` clause. -/
def codeExpiringCount (now horizon : Int) (clients : List ClientRow) : Nat :=
  (clients.filter (codeExpiringPred now horizon)).length

/-- Milliseconds per day, for epoch-millisecond date arithmetic. -/
def msPerDay : Int := 86400000

/-- Modelled from the spec: the count the spec describes — ACTIVE
clients whose `contractStartDate` lies in the half-open-above interval
`(now, now + h days]`. -/
def specExpiringCount (now : Int) (h : Int) (clients : List ClientRow) : Nat :=
  (clients.filter (fun c =>
    decide (c.type = ClientType.ACTIVE) &&
    decide (now < c.contractStartDate) &&
    decide (c.contractStartDate ≤ now + h * msPerDay))).length

/-! ## Staff-work payout preview (`AccountsService.getStaffWorkPayoutPreview`) -/

/-- The `Staff.type` enum. -/
inductive StaffType
  | MONTHLY
  | WORK_BASIS
  deriving DecidableEq, Repr

/-- A local-time instant as a JS `Date` built from calendar components:
year, 1-based month, day of month, and milliseconds elapsed within that
day. For normalized dates, JS epoch-millisecond comparison is the
lexicographic comparison of these components. -/
structure LocalDT where
  year : Int
  month : Int
  day : Int
  msOfDay : Int
  deriving DecidableEq, Repr

/-- Embeds `a <= b` on JS `Date`s, as lexicographic comparison of normalized
local calendar components. -/
def dtLe (a b : LocalDT) : Bool :=
  if a.year ≠ b.year then decide (a.year < b.year)
  else if a.month ≠ b.month then decide (a.month < b.month)
  else if a.day ≠ b.day then decide (a.day < b.day)
  else decide (a.msOfDay ≤ b.msOfDay)

/-- Leap-year rule of the proleptic Gregorian calendar used by JS `Date`. -/
def isLeapYear (y : Int) : Bool :=
  (y % 4 == 0 && y % 100 != 0) || y % 400 == 0

/-- Number of days of calendar month `m` (1-based) of year `y`. -/
def daysInMonth (y m : Int) : Int :=
  if m = 2 then (if isLeapYear y then 29 else 28)
  else if m = 4 ∨ m = 6 ∨ m = 9 ∨ m = 11 then 30
  else 31

/-- Embeds `startDate = new Date(year, month - 1, 1)`: local midnight of the
first day of 1-based month `month`. -/
def monthStart (year month : Int) : LocalDT :=
  { year := year, month := month, day := 1, msOfDay := 0 }

/-- Embeds `endDate = new Date(year, month, 0)`: JS normalizes day 0 of the
0-based month `month` to the last day of 1-based month `month`, at local
midnight (for 1 ≤ month ≤ 12). -/
def monthEnd (year month : Int) : LocalDT :=
  { year := year, month := month, day := daysInMonth year month, msOfDay := 0 }

/-- The joined `staff` record of a `StaffWork` row. -/
structure StaffRec where
  name : String
  type : StaffType
  deriving DecidableEq, Repr

/-- The joined `workItem` record of a `StaffWork` row. -/
structure WorkItemRec where
  title : String
  deriving DecidableEq, Repr

/-- The joined `client` record of a `StaffWork` row. -/
structure ClientRec where
  name : String
  deriving DecidableEq, Repr

/-- A `StaffWork` row as returned by `findMany` with
`include: { staff, workItem, client }`. `workItem`, `quantity`,
`unitRateNrs` and `client` are nullable (migration
20250901055414 dropped their NOT NULL constraints). -/
structure StaffWorkRow where
  id : Int
  staffId : Int
  staff : StaffRec
  workItem : Option WorkItemRec
  quantity : Option Int
  unitRateNrs : Option Int
  client : Option ClientRec
  performedAt : LocalDT
  deriving DecidableEq, Repr

/-- The `whereCondition` of `getStaffWorkPayoutPreview`: `performedAt`
between `startDate` and `endDate` inclusive, staff of type WORK_BASIS,
and — only when the supplied `staffId` is truthy (present and nonzero) —
a `staffId` match. -/
def staffWorkWhere (month year : Int) (staffId : Option Int)
    (w : StaffWorkRow) : Bool :=
  dtLe (monthStart year month) w.performedAt &&
  dtLe w.performedAt (monthEnd year month) &&
  decide (w.staff.type = StaffType.WORK_BASIS) &&
  (match staffId with
   | none => true
   | some s => if s = 0 then true else decide (w.staffId = s))

/-- JS `work.client?.name || 'No Client'`: `undefined` (absent client)
and the empty string are falsy. -/
def clientNameOrNoClient : Option ClientRec → String
  | none => "No Client"
  | some c => if c.name = "" then "No Client" else c.name

/-- One line of a payout group's `works` list. -/
structure PayoutWork where
  id : Int
  workItem : String
  client : String
  quantity : Option Int
  unitRate : Option Int
  total : Int
  performedAt : LocalDT
  deriving DecidableEq, Repr

/-- One per-staff group of the payout preview. -/
structure PayoutGroup where
  staffId : Int
  staffName : String
  totalAmount : Int
  works : List PayoutWork
  deriving DecidableEq, Repr

/-- The body of the `reduce` for one `StaffWork` row: reading
`work.workItem.title` throws a `TypeError` when `workItem` is `null`;
`workTotal = work.quantity * work.unitRateNrs` coerces `null` operands
to 0 (JS `Number(null) = 0`), never raising. -/
def buildWorkLine (w : StaffWorkRow) : Except String PayoutWork :=
  match w.workItem with
  | none => .error "TypeError: cannot read title of null"
  | some wi =>
      .ok { id := w.id
            workItem := wi.title
            client := clientNameOrNoClient w.client
            quantity := w.quantity
            unitRate := w.unitRateNrs
            total := jsMulNull w.quantity w.unitRateNrs
            performedAt := w.performedAt }

/-- Insert one row's line into the accumulator keyed by `staffId`
(creating the group on first sight, in insertion order). -/
def addToGroups (groups : List PayoutGroup) (w : StaffWorkRow)
    (line : PayoutWork) : List PayoutGroup :=
  match groups with
  | [] => [{ staffId := w.staffId, staffName := w.staff.name
             totalAmount := line.total, works := [line] }]
  | g :: gs =>
      if g.staffId = w.staffId then
        { g with totalAmount := g.totalAmount + line.total
                 works := g.works ++ [line] } :: gs
      else
        g :: addToGroups gs w line

/-- The `reduce` of `getStaffWorkPayoutPreview` over the selected rows;
a thrown `TypeError` inside the callback aborts the whole call. -/
def payoutReduce (rows : List StaffWorkRow) : Except String (List PayoutGroup) :=
  rows.foldlM (fun acc w => do
    let line ← buildWorkLine w
    pure (addToGroups acc w line)) []

/-- Embeds `AccountsService.getStaffWorkPayoutPreview` over
a table of joined `StaffWork` rows. -/
def getStaffWorkPayoutPreview (month year : Int) (staffId : Option Int)
    (works : List StaffWorkRow) : Except String (List PayoutGroup) :=
  payoutReduce (works.filter (staffWorkWhere month year staffId))

/-! ## Reminder staging engine (`RemindersService`) -/

/-- The `AdminReminder.priority` enum. -/
inductive ReminderPriority
  | LOW
  | MEDIUM
  | HIGH
  | URGENT
  deriving DecidableEq, Repr

/-- Reminder stage. -/
inductive Stage
  | INITIAL
  | MIDPOINT
  | FINAL
  deriving DecidableEq, Repr

/-- Embeds `RemindersService.getPriorityAndStages` (src/unnamed/part_015,
lines 248-273). `Math.floor(totalDays * 0.5)` and
`Math.floor(totalDays * 0.25)` are exact in binary floating point for
integer `totalDays` of this schema's range, so they embed as floor
division by 2 and 4. -/
def getPriorityAndStages (totalDays daysRemaining : Int) :
    ReminderPriority × Stage :=
  let halfwayPoint := Int.fdiv totalDays 2
  let quarterPoint := Int.fdiv totalDays 4
  if daysRemaining ≤ quarterPoint then (ReminderPriority.URGENT, Stage.FINAL)
  else if daysRemaining ≤ halfwayPoint then (ReminderPriority.HIGH, Stage.MIDPOINT)
  else (ReminderPriority.MEDIUM, Stage.INITIAL)

/-- A client selected by `getClientsForReminder`, with the enrichment
fields the loop body of `sendContractExpiryReminders` reads. -/
structure ReminderClient where
  id : Int
  name : String
  daysUntilExpiry : Int
  priority : ReminderPriority
  stage : Stage
  deriving DecidableEq, Repr

/-- The observable effects of one `sendContractExpiryReminders` run:
`AdminReminder` rows created, email dispatches attempted, and log lines. -/
structure ReminderRunState where
  createdFor : List Int
  attemptedFor : List Int
  logs : List String
  deriving DecidableEq, Repr

/-- The outcome of `this.transporter.sendMail` for a given client,
supplied as an environment `outcome` function: `false` means the SMTP
call rejects. -/
def sendMail (outcome : Int → Bool) (c : ReminderClient) : Except String Unit :=
  if outcome c.id then .ok () else .error "smtp dispatch failed"

/-- Embeds `RemindersService.sendAdminReminderEmail` (part_015, lines 364-370):
the `sendMail` call sits in a `try`/`catch` whose `catch` only logs, so
the method never propagates a dispatch failure. -/
def sendAdminReminderEmail (outcome : Int → Bool) (c : ReminderClient)
    (st : ReminderRunState) : ReminderRunState :=
  match sendMail outcome c with
  | .ok _ =>
      { st with attemptedFor := st.attemptedFor ++ [c.id]
                logs := st.logs ++ ["Admin reminder email sent for " ++ c.name] }
  | .error _ =>
      { st with attemptedFor := st.attemptedFor ++ [c.id]
                logs := st.logs ++ ["Failed to send admin reminder email for " ++ c.name] }

/-- One iteration of the `for` loop of `sendContractExpiryReminders`:
create the `AdminReminder` row, then attempt the admin email. An
uncaught exception in an iteration would abort the loop, hence the
`Except` result. -/
def processReminder (outcome : Int → Bool) (st : ReminderRunState)
    (c : ReminderClient) : Except String ReminderRunState :=
  let st' := { st with createdFor := st.createdFor ++ [c.id] }
  .ok (sendAdminReminderEmail outcome c st')

/-- Embeds `RemindersService.sendContractExpiryReminders` (part_015, lines
377-397): iterate the selected clients in order, creating a reminder row
and attempting the email for each. -/
def sendContractExpiryReminders (outcome : Int → Bool)
    (clients : List ReminderClient) : Except String ReminderRunState :=
  clients.foldlM (processReminder outcome) ⟨[], [], []⟩

/-! ## Concrete rows used as test inputs -/

/-- An ACTIVE client whose contract start lies one hour after epoch 0. -/
def acmeRow : ClientRow :=
  { id := 1, name := "Acme", type := ClientType.ACTIVE, contractStartDate := 3600000 }

/-- A qualifying work-basis `StaffWork` performed at noon of the last
calendar day of January 2025. -/
def lastDayNoonWork : StaffWorkRow :=
  { id := 1, staffId := 3, staff := { name := "Ram", type := StaffType.WORK_BASIS }
    workItem := some { title := "Logo" }, quantity := some 2, unitRateNrs := some 500
    client := none, performedAt := { year := 2025, month := 1, day := 31, msOfDay := 43200000 } }

/-- A `StaffWork` row with `workItemId` set but `quantity` null. -/
def nullQtyWork : StaffWorkRow :=
  { id := 2, staffId := 4, staff := { name := "Sita", type := StaffType.WORK_BASIS }
    workItem := some { title := "Video Edit" }, quantity := none, unitRateNrs := some 500
    client := none, performedAt := { year := 2025, month := 3, day := 10, msOfDay := 0 } }

/-! ## Shared lemmas about grouping and sums -/

theorem jsOrZero_sumAgg (l : List Int) : jsOrZero (sumAgg l) = l.sum := by
  cases l <;> simp [sumAgg, jsOrZero]

theorem totalIncomeNrs_eq_sum (incomes : List Income) :
    totalIncomeNrs incomes = (incomes.map Income.amountNrs).sum := by
  simp [totalIncomeNrs, jsOrZero_sumAgg]

theorem totalExpenseNrs_eq_sum (expenses : List Expense) :
    totalExpenseNrs expenses = (expenses.map Expense.amountNrs).sum := by
  simp [totalExpenseNrs, jsOrZero_sumAgg]

theorem jsOrZero_groupSum {α κ : Type} [DecidableEq κ] (key : α → κ)
    (amt : α → Int) (rows : List α) (k : κ) :
    jsOrZero (groupSum key amt rows k) =
      ((rows.filter (fun r => decide (key r = k))).map amt).sum := by
  unfold groupSum
  cases h : rows.filter (fun r => decide (key r = k)) with
  | nil => simp [jsOrZero]
  | cons a t => simp [jsOrZero]

theorem sum_map_zero {κ : Type} (K : List κ) :
    (K.map (fun _ => (0 : Int))).sum = 0 := by
  induction K with
  | nil => rfl
  | cons a K ih => simp [ih]

theorem sum_map_ite {κ : Type} [DecidableEq κ] (K : List κ) (hK : K.Nodup)
    (k0 : κ) (hk : k0 ∈ K) (f : κ → Int) (a : Int) :
    (K.map (fun k => if k0 = k then a + f k else f k)).sum
      = a + (K.map f).sum := by
  induction K with
  | nil => cases hk
  | cons b K ih =>
      rcases List.mem_cons.mp hk with hb | hb
      · subst hb
        have hnot : k0 ∉ K := (List.nodup_cons.mp hK).1
        have hcongr : K.map (fun k => if k0 = k then a + f k else f k) = K.map f := by
          refine List.map_congr_left fun k hkK => ?_
          have : k0 ≠ k := fun h => hnot (h ▸ hkK)
          simp [this]
        simp [hcongr]
        ring
      · have hne : b ≠ k0 := by
          intro h
          exact (List.nodup_cons.mp hK).1 (h ▸ hb)
        have := ih (List.nodup_cons.mp hK).2 hb
        simp only [List.map_cons, List.sum_cons, this]
        rw [if_neg (fun h => hne h.symm)]
        ring

theorem sum_groups_aux {α κ : Type} [DecidableEq κ] (key : α → κ)
    (amt : α → Int) (K : List κ) (hK : K.Nodup) :
    ∀ rows : List α, (∀ r ∈ rows, key r ∈ K) →
      (K.map (fun k =>
        ((rows.filter (fun r => decide (key r = k))).map amt).sum)).sum
        = (rows.map amt).sum := by
  intro rows
  induction rows with
  | nil => intro _; simp [sum_map_zero]
  | cons r rs ih =>
      intro hcov
      have hcovrs : ∀ x ∈ rs, key x ∈ K := fun x hx => hcov x (List.mem_cons_of_mem _ hx)
      have hkr : key r ∈ K := hcov r (List.mem_cons_self _ _)
      have hstep : K.map (fun k =>
            (((r :: rs).filter (fun x => decide (key x = k))).map amt).sum)
          = K.map (fun k =>
            if key r = k then
              amt r + ((rs.filter (fun x => decide (key x = k))).map amt).sum
            else ((rs.filter (fun x => decide (key x = k))).map amt).sum) := by
        refine List.map_congr_left fun k _ => ?_
        by_cases h : key r = k
        · simp [List.filter_cons, h]
        · simp [List.filter_cons, h]
      rw [hstep, sum_map_ite K hK (key r) hkr _ (amt r), ih hcovrs]
      simp

theorem sum_groups {α κ : Type} [DecidableEq κ] (key : α → κ) (amt : α → Int)
    (rows : List α) :
    ((groupKeys key rows).map (fun k => jsOrZero (groupSum key amt rows k))).sum
      = (rows.map amt).sum := by
  have h1 : (groupKeys key rows).map (fun k => jsOrZero (groupSum key amt rows k))
      = (groupKeys key rows).map (fun k =>
          ((rows.filter (fun r => decide (key r = k))).map amt).sum) :=
    List.map_congr_left fun k _ => jsOrZero_groupSum key amt rows k
  rw [h1]
  exact sum_groups_aux key amt (groupKeys key rows) (List.nodup_dedup _)
    rows (fun r hr => List.mem_dedup.mpr (List.mem_map_of_mem key hr))

theorem mem_groups_map {α κ β : Type} [DecidableEq κ] (key : α → κ)
    (f : κ → β) (g : β → κ) (hfg : ∀ k, g (f k) = k) (rows : List α) (k : κ) :
    (∃ e ∈ (groupKeys key rows).map f, g e = k) ↔ ∃ r ∈ rows, key r = k := by
  constructor
  · rintro ⟨e, he, rfl⟩
    obtain ⟨a, ha, rfl⟩ := List.mem_map.mp he
    obtain ⟨r, hr, hra⟩ := List.mem_map.mp (List.mem_dedup.mp ha)
    exact ⟨r, hr, by rw [hfg, hra]⟩
  · rintro ⟨r, hr, rfl⟩
    exact ⟨f (key r),
      List.mem_map_of_mem f (List.mem_dedup.mpr (List.mem_map_of_mem key hr)),
      hfg _⟩

theorem incomeByClient_total_sum (incomes : List Income) (clients : List ClientRow) :
    ((incomeByClient incomes clients).map IncomeByClientEntry.total).sum
      = totalIncomeNrs incomes := by
  have h : (incomeByClient incomes clients).map IncomeByClientEntry.total
      = (groupKeys Income.clientId incomes).map
          (fun k => jsOrZero (groupSum Income.clientId Income.amountNrs incomes k)) := by
    simp [incomeByClient, List.map_map, Function.comp]
  rw [h, sum_groups, totalIncomeNrs_eq_sum]

theorem expenseBySource_total_sum (expenses : List Expense) :
    ((expenseBySource expenses).map ExpenseBySourceEntry.total).sum
      = totalExpenseNrs expenses := by
  have h : (expenseBySource expenses).map ExpenseBySourceEntry.total
      = (groupKeys Expense.source expenses).map
          (fun k => jsOrZero (groupSum Expense.source Expense.amountNrs expenses k)) := by
    simp [expenseBySource, List.map_map, Function.comp]
  rw [h, sum_groups, totalExpenseNrs_eq_sum]

/-! ## Claim theorems -/

/-- Claim C1. The claim states that `adjustAccount` accepts any subset of
`{lockedDelta, advanceDelta}` with absent deltas defaulting to 0. On the
code this holds only when both deltas are supplied: then the call adds
`lockedDelta` to `lockedAmountNrs`, `advanceDelta` to `advanceAmountNrs`
and `lockedDelta - advanceDelta` to `dueAmountNrs` (first conjunct, which
also yields preservation of `due = locked - advance`). When either delta
is omitted the code still computes the due increment as
`lockedDelta - advanceDelta`, a `NaN`, and the update fails instead of
defaulting the missing delta to 0 (remaining conjuncts). -/
theorem adjustAccount_behaviour :
    (∀ (c : ClientAcct) (l a : Int),
      adjustAccount c (some l) (some a) =
        Except.ok { lockedAmountNrs := c.lockedAmountNrs + l
                    advanceAmountNrs := c.advanceAmountNrs + a
                    dueAmountNrs := c.dueAmountNrs + (l - a) }) ∧
    (∀ (c : ClientAcct) (l : Int),
      adjustAccount c (some l) none =
        Except.error "invalid NaN increment for dueAmountNrs") ∧
    (∀ (c : ClientAcct) (a : Int),
      adjustAccount c none (some a) =
        Except.error "invalid NaN increment for dueAmountNrs") ∧
    adjustAccount { lockedAmountNrs := 0, advanceAmountNrs := 0, dueAmountNrs := 0 }
        (some 5) none =
      Except.error "invalid NaN increment for dueAmountNrs" := by
  refine ⟨fun c l a => rfl, fun c l => rfl, fun c a => rfl, rfl⟩

/-- Claim C2. The `where` clause of each `contractsExpiringIn{h}Day(s)`
count conjoins `contractStartDate <= now` with `contractStartDate > now`,
so the count is 0 on every dataset, for every `now` and horizon (first
conjunct) — whereas the claim asks for the number of ACTIVE clients with
`contractStartDate` in `(now, now + h days]`, which is 1 on the
one-client dataset of the remaining conjuncts while the code returns 0. -/
theorem codeExpiringCount_always_zero :
    (∀ (now horizon : Int) (clients : List ClientRow),
      codeExpiringCount now horizon clients = 0) ∧
    specExpiringCount 0 1 [acmeRow] = 1 ∧
    codeExpiringCount 0 msPerDay [acmeRow] = 0 := by
  refine ⟨fun now horizon clients => ?_, rfl, rfl⟩
  unfold codeExpiringCount
  rw [List.length_eq_zero]
  refine List.filter_eq_nil_iff.mpr fun c _ => ?_
  simp only [codeExpiringPred, Bool.and_eq_true, decide_eq_true_eq, not_and]
  rintro ⟨⟨-, h1⟩, -⟩ h2
  omega

/-- Claim C3. `getSummary` totals: `totalIncomeNrs` is the sum of all
`Income.amountNrs`, `totalExpenseNrs` the sum of all `Expense.amountNrs`,
`netNrs` their difference, and the empty dataset yields `0, 0, 0`. -/
theorem summary_totals_additivity :
    (∀ (incomes : List Income) (expenses : List Expense),
      totalIncomeNrs incomes = (incomes.map Income.amountNrs).sum ∧
      totalExpenseNrs expenses = (expenses.map Expense.amountNrs).sum ∧
      netNrs incomes expenses = totalIncomeNrs incomes - totalExpenseNrs expenses) ∧
    totalIncomeNrs [] = 0 ∧ totalExpenseNrs [] = 0 ∧ netNrs [] [] = 0 := by
  exact ⟨fun incomes expenses =>
    ⟨totalIncomeNrs_eq_sum incomes, totalExpenseNrs_eq_sum expenses, rfl⟩,
    rfl, rfl, rfl⟩

/-- Claim C5. `getPriorityAndStages` is a pure function of the two
integers: it returns URGENT/FINAL exactly when
`daysRemaining ≤ floor(totalDays/4)`, HIGH/MIDPOINT exactly when that
fails and `daysRemaining ≤ floor(totalDays/2)`, MEDIUM/INITIAL exactly
when both fail; for `totalDays = 100`, `daysRemaining = 10` and the
boundary `25` give URGENT/FINAL, `40` gives HIGH/MIDPOINT and `90` gives
MEDIUM/INITIAL. -/
theorem stage_classification :
    (∀ totalDays daysRemaining : Int,
      (getPriorityAndStages totalDays daysRemaining
          = (ReminderPriority.URGENT, Stage.FINAL) ↔
        daysRemaining ≤ Int.fdiv totalDays 4) ∧
      (getPriorityAndStages totalDays daysRemaining
          = (ReminderPriority.HIGH, Stage.MIDPOINT) ↔
        (¬ daysRemaining ≤ Int.fdiv totalDays 4 ∧
          daysRemaining ≤ Int.fdiv totalDays 2)) ∧
      (getPriorityAndStages totalDays daysRemaining
          = (ReminderPriority.MEDIUM, Stage.INITIAL) ↔
        (¬ daysRemaining ≤ Int.fdiv totalDays 4 ∧
          ¬ daysRemaining ≤ Int.fdiv totalDays 2))) ∧
    getPriorityAndStages 100 10 = (ReminderPriority.URGENT, Stage.FINAL) ∧
    getPriorityAndStages 100 25 = (ReminderPriority.URGENT, Stage.FINAL) ∧
    getPriorityAndStages 100 40 = (ReminderPriority.HIGH, Stage.MIDPOINT) ∧
    getPriorityAndStages 100 90 = (ReminderPriority.MEDIUM, Stage.INITIAL) := by
  refine ⟨fun totalDays daysRemaining => ?_, by decide, by decide, by decide, by decide⟩
  simp only [getPriorityAndStages]
  split_ifs with h1 h2 <;>
    refine ⟨?_, ?_, ?_⟩ <;> simp_all

/-- Claim C4. The `incomeByClient` totals sum to `totalIncomeNrs`, the
`expenseBySource` totals sum to `totalExpenseNrs`, and an entry exists
for a client id (resp. source) exactly when some `Income` (resp.
`Expense`) row carries it — never a zero-filled entry for an absent key. -/
theorem breakdown_completeness :
    ∀ (incomes : List Income) (clients : List ClientRow) (expenses : List Expense),
      ((incomeByClient incomes clients).map IncomeByClientEntry.total).sum
          = totalIncomeNrs incomes ∧
      ((expenseBySource expenses).map ExpenseBySourceEntry.total).sum
          = totalExpenseNrs expenses ∧
      (∀ k : Int, (∃ e ∈ incomeByClient incomes clients, e.clientId = k) ↔
        ∃ i ∈ incomes, i.clientId = k) ∧
      (∀ s : ExpenseSource, (∃ e ∈ expenseBySource expenses, e.source = s) ↔
        ∃ x ∈ expenses, x.source = s) := by
  intro incomes clients expenses
  refine ⟨incomeByClient_total_sum incomes clients,
    expenseBySource_total_sum expenses, fun k => ?_, fun s => ?_⟩
  · exact mem_groups_map Income.clientId _ IncomeByClientEntry.clientId
      (fun _ => rfl) incomes k
  · exact mem_groups_map Expense.source _ ExpenseBySourceEntry.source
      (fun _ => rfl) expenses s

/-- Claim C6. The payout-preview `where` clause compares `performedAt`
against `endDate = new Date(year, month, 0)`, local midnight of the last
calendar day: for the January 2025 query, the otherwise-qualifying
`lastDayNoonWork` performed at noon of the last calendar day (day 31 =
`daysInMonth 2025 1`) is excluded, and in general a work on that day is
selected iff its time of day is midnight (`t ≤ 0`); every work on the
first day of the following month is excluded for every time of day. -/
theorem month_end_noon_excluded :
    staffWorkWhere 1 2025 none lastDayNoonWork = false ∧
    lastDayNoonWork.performedAt.year = 2025 ∧
    lastDayNoonWork.performedAt.month = 1 ∧
    lastDayNoonWork.performedAt.day = daysInMonth 2025 1 ∧
    lastDayNoonWork.staff.type = StaffType.WORK_BASIS ∧
    (∀ t : Int,
      (staffWorkWhere 1 2025 none
        { lastDayNoonWork with
          performedAt := { year := 2025, month := 1, day := 31, msOfDay := t } } = true)
        ↔ t ≤ 0) ∧
    (∀ t : Int,
      staffWorkWhere 1 2025 none
        { lastDayNoonWork with
          performedAt := { year := 2025, month := 2, day := 1, msOfDay := t } } = false) := by
  refine ⟨by decide, rfl, rfl, by decide, rfl, fun t => ?_, fun t => ?_⟩
  · simp [staffWorkWhere, dtLe, monthStart, monthEnd, daysInMonth, isLeapYear,
      lastDayNoonWork]
  · simp [staffWorkWhere, dtLe, monthStart, monthEnd, daysInMonth, isLeapYear,
      lastDayNoonWork]

/-- Claim C7, counterexample. A selected row with `workItemId` set but
`quantity` null does not make the reference throw: `buildWorkLine` on
`nullQtyWork` returns a normal line whose `total` is 0 — the null
quantity IS silently coerced to a zero line total. -/
theorem null_quantity_yields_ok_zero :
    buildWorkLine nullQtyWork =
      Except.ok ⟨2, "Video Edit", "No Client", none, some 500, 0, ⟨2025, 3, 10, 0⟩⟩ := rfl

/-- Claim C7, amended. For every row whose `workItem` join is present,
the payout line is produced without any runtime error and its `total` is
the JS product coercing null `quantity`/`unitRateNrs` to 0; in
particular the whole preview over `nullQtyWork` succeeds with a zero
line total and a zero `totalAmount`. -/
theorem null_quantity_coerced_to_zero :
    (∀ (i s : Int) (st : StaffRec) (wi : WorkItemRec) (q r : Option Int)
        (cl : Option ClientRec) (dt : LocalDT),
      buildWorkLine ⟨i, s, st, some wi, q, r, cl, dt⟩ =
        Except.ok ⟨i, wi.title, clientNameOrNoClient cl, q, r,
          jsOrZero q * jsOrZero r, dt⟩) ∧
    getStaffWorkPayoutPreview 3 2025 none [nullQtyWork] =
      Except.ok [⟨4, "Sita", 0,
        [⟨2, "Video Edit", "No Client", none, some 500, 0, ⟨2025, 3, 10, 0⟩⟩]⟩] := by
  exact ⟨fun i s st wi q r cl dt => rfl, rfl⟩

theorem reminders_foldlM_ok (outcome : Int → Bool) :
    ∀ (clients : List ReminderClient) (init : ReminderRunState),
      ∃ st : ReminderRunState,
        clients.foldlM (processReminder outcome) init = Except.ok st ∧
        st.createdFor = init.createdFor ++ clients.map ReminderClient.id ∧
        st.attemptedFor = init.attemptedFor ++ clients.map ReminderClient.id := by
  intro clients
  induction clients with
  | nil => exact fun init => ⟨init, rfl, by simp, by simp⟩
  | cons c cs ih =>
      intro init
      have hproc : ∃ st1, processReminder outcome init c = Except.ok st1 ∧
          st1.createdFor = init.createdFor ++ [c.id] ∧
          st1.attemptedFor = init.attemptedFor ++ [c.id] := by
        by_cases h : outcome c.id
        · refine ⟨⟨init.createdFor ++ [c.id], init.attemptedFor ++ [c.id],
            init.logs ++ ["Admin reminder email sent for " ++ c.name]⟩, ?_, rfl, rfl⟩
          simp [processReminder, sendAdminReminderEmail, sendMail, h]
        · refine ⟨⟨init.createdFor ++ [c.id], init.attemptedFor ++ [c.id],
            init.logs ++ ["Failed to send admin reminder email for " ++ c.name]⟩, ?_, rfl, rfl⟩
          simp [processReminder, sendAdminReminderEmail, sendMail, h]
      obtain ⟨st1, hp, hpc, hpa⟩ := hproc
      obtain ⟨st, hf, hc, ha⟩ := ih st1
      refine ⟨st, ?_, ?_, ?_⟩
      · rw [List.foldlM_cons, hp]
        simpa using hf
      · rw [hc, hpc]; simp
      · rw [ha, hpa]; simp

/-- Claim C8. For every selected-client list and every per-client email
outcome (failures included), `sendContractExpiryReminders` completes
normally: the loop never aborts, an `AdminReminder` row is created for
every selected client and an email dispatch is attempted for every one —
a dispatch failure is caught inside `sendAdminReminderEmail` and only
logged. -/
theorem email_failure_does_not_abort :
    ∀ (outcome : Int → Bool) (clients : List ReminderClient),
      ∃ st : ReminderRunState,
        sendContractExpiryReminders outcome clients = Except.ok st ∧
        st.createdFor = clients.map ReminderClient.id ∧
        st.attemptedFor = clients.map ReminderClient.id := by
  intro outcome clients
  obtain ⟨st, h1, h2, h3⟩ := reminders_foldlM_ok outcome clients ⟨[], [], []⟩
  exact ⟨st, h1, by simpa using h2, by simpa using h3⟩

/-- Claim C9. Supplying `staffId = 0` is falsy in the `if (staffId)`
guard, so no staff filter is added: the preview equals the preview with
`staffId` omitted, for every dataset and month/year. -/
theorem staffId_zero_is_no_filter :
    ∀ (month year : Int) (works : List StaffWorkRow),
      getStaffWorkPayoutPreview month year (some 0) works =
        getStaffWorkPayoutPreview month year none works := by
  intro month year works
  unfold getStaffWorkPayoutPreview
  congr 1

/-- Claim C10. A grouped income client id with no matching `Client` row
still yields an `incomeByClient` entry, named `'Unknown'`, carrying the
group's summed total; and the entry totals still sum to
`totalIncomeNrs`. -/
theorem unknown_client_entry :
    ∀ (incomes : List Income) (clients : List ClientRow) (k : Int),
      k ∈ incomes.map Income.clientId →
      findClientName clients k = none →
      ({ clientId := k, name := "Unknown",
         total := ((incomes.filter (fun i => decide (i.clientId = k))).map
           Income.amountNrs).sum } : IncomeByClientEntry)
        ∈ incomeByClient incomes clients ∧
      ((incomeByClient incomes clients).map IncomeByClientEntry.total).sum
        = totalIncomeNrs incomes := by
  intro incomes clients k hk hnone
  refine ⟨?_, incomeByClient_total_sum incomes clients⟩
  have hmem : k ∈ groupKeys Income.clientId incomes := List.mem_dedup.mpr hk
  have hin := List.mem_map_of_mem (fun k =>
    ({ clientId := k, name := jsOrUnknown (findClientName clients k),
       total := jsOrZero (groupSum Income.clientId Income.amountNrs incomes k) } :
      IncomeByClientEntry)) hmem
  have hname : jsOrUnknown (findClientName clients k) = "Unknown" := by
    rw [hnone]; rfl
  have htotal := jsOrZero_groupSum Income.clientId Income.amountNrs incomes k
  simpa [incomeByClient, hname, htotal] using hin

/-- Witness for claim C10 at the dataset of a single income row for
client 7 and an empty client table. -/
theorem unknown_client_entry_witness :
    ({ clientId := 7, name := "Unknown", total := 100 } : IncomeByClientEntry)
        ∈ incomeByClient [⟨7, 100⟩] [] ∧
      ((incomeByClient [⟨7, 100⟩] []).map IncomeByClientEntry.total).sum
        = totalIncomeNrs [⟨7, 100⟩] := by
  exact unknown_client_entry [⟨7, 100⟩] [] 7 (by decide) rfl

end ClientMgmt
